import Mathlib

/-!
Shallow embedding of `scripts/create-demo-images.py` from the
clockpilot-design-dash repository.

The script renders fixed-layout placeholder PNG images (header bar, centered
title and description, outlined boxes, a button, static texts, a footer) for a
hardcoded list of 14 (path, title, description) specs, creating output
directories as needed and saving each canvas as a PNG.

The embedding models:
  * the PIL font environment (`FontEnv`): `ImageFont.truetype` as a fallible
    lookup (any raised exception is an `Exc` value), `ImageFont.load_default`
    as an infallible built-in font, and `draw.textbbox` as a pure measurement;
  * the canvas (`Img`) as its mode, dimensions, background color and the
    ordered list of draw calls performed on it;
  * the filesystem (`FS`) as the set of existing directories, the written
    files, and per-path permission predicates that decide whether `mkdir`
    and file writes succeed;
  * `os.makedirs(..., exist_ok=True)` and `img.save(filename, "PNG")` as
    `Except`-valued state transformers, and the generator / batch driver as
    state transformers returning the Python-style "state so far plus the
    uncaught exception, if any".
-/

namespace CreateDemoImages

/-- Python exception values, distinguished by kind (the source's bare
`except:` clauses catch every kind). -/
inductive Exc where
  | fileNotFoundError (msg : String)
  | permissionError (msg : String)
  | oserror (msg : String)
  | valueError (msg : String)
  | typeError (msg : String)
  deriving DecidableEq, Repr

/-- A loaded PIL font handle (abstract: identified by how it was obtained). -/
structure Font where
  name : String
  size : Nat
  deriving DecidableEq, Repr

/-- Result of `draw.textbbox((0, 0), text, font=...)`. -/
structure Bbox where
  x0 : Int
  y0 : Int
  x1 : Int
  y1 : Int
  deriving DecidableEq, Repr

/-- The PIL font environment of the host system: which `truetype` loads
succeed (and with which exception they fail otherwise), the built-in default
font, and text measurement. -/
structure FontEnv where
  truetype : String → Nat → Except Exc Font
  load_default : Font
  textbbox : Font → String → Bbox

-- Configuration (lines 11-14 of the source)
def SCREENSHOTS_DIR : String := "docs/screenshots"
def WIDTH : Nat := 1200
def HEIGHT : Nat := 800
def FONT_SIZE : Nat := 24

/-- One tier of the font fallback: the body of one `try:` block, loading the
same font name at the title size `FONT_SIZE + 8` and the description size
`FONT_SIZE - 4`; an exception in either load aborts the tier (lines 25-26,
29-30 of the source). -/
def loadTier (env : FontEnv) (name : String) : Except Exc (Font × Font) := do
  let font_title ← env.truetype name (FONT_SIZE + 8)
  let font_desc ← env.truetype name (FONT_SIZE - 4)
  pure (font_title, font_desc)

/-- The second and third tiers (the inner `try/except` of lines 28-33):
`arial.ttf` at the two sizes, else the built-in default font for both. -/
def resolveFromArial (env : FontEnv) : Font × Font :=
  match loadTier env "arial.ttf" with
  | .ok p => p
  | .error _ => (env.load_default, env.load_default)

/-- The whole three-tier font resolution of lines 24-33: the system Helvetica
file, else `arial.ttf`, else the built-in default font. Total: no failure
escapes. -/
def resolveFonts (env : FontEnv) : Font × Font :=
  match loadTier env "/System/Library/Fonts/Helvetica.ttc" with
  | .ok p => p
  | .error _ => resolveFromArial env

/-- Rendered pixel width of `s` in font `f`: `bbox[2] - bbox[0]` (lines 45,
51 of the source). -/
def textWidthOf (env : FontEnv) (f : Font) (s : String) : Int :=
  let b := env.textbbox f s
  b.x1 - b.x0

/-- The horizontal centering computation `(WIDTH - w) // 2` (lines 46, 52 of
the source); Python `//` is floor division, hence `Int.fdiv`. -/
def centerX (w : Int) : Int := ((WIDTH : Int) - w).fdiv 2

/-- One recorded draw call on the canvas. -/
inductive DrawOp where
  | rectangle (x0 y0 x1 y1 : Int) (fill : Option String) (outline : Option String)
      (width : Nat)
  | text (x y : Int) (s : String) (fill : String) (font : Font)
  deriving DecidableEq, Repr

/-- An in-memory canvas: its mode, dimensions, the background fill it was
allocated with, and the ordered draw calls painted onto it. -/
structure Img where
  mode : String
  width : Nat
  height : Nat
  background : String
  ops : List DrawOp
  deriving DecidableEq, Repr

/-- The canvas produced by `create_placeholder_image` before saving: the
`Image.new` call of line 20 and the draw calls of lines 41-71, in order. -/
def renderedImage (env : FontEnv) (title description : String) : Img :=
  let fonts := resolveFonts env
  let font_title := fonts.1
  let font_desc := fonts.2
  let bg_gradient := "#3b82f6"
  let text_color := "#1f2937"
  let accent_color := "#ef4444"
  let title_width := textWidthOf env font_title title
  let title_x := centerX title_width
  let desc_width := textWidthOf env font_desc description
  let desc_x := centerX desc_width
  { mode := "RGB"
    width := WIDTH
    height := HEIGHT
    background := "#f8fafc"
    ops := [
      .rectangle 0 0 (WIDTH : Int) 100 (some bg_gradient) none 0,
      .text title_x 30 title "white" font_title,
      .text desc_x 200 description text_color font_desc,
      .rectangle 50 150 ((WIDTH : Int) - 50) 180 none (some "#e5e7eb") 2,
      .rectangle 100 250 ((WIDTH : Int) - 100) ((HEIGHT : Int) - 100) none
        (some "#e5e7eb") 2,
      .rectangle 120 270 250 310 (some accent_color) none 0,
      .text 135 285 "Action" "white" font_desc,
      .text 120 350 "Interface ClockPilot" text_color font_desc,
      .text 120 380 "Gestion des temps et planning" "#6b7280" font_desc,
      .text 50 ((HEIGHT : Int) - 50) "© 2024 ClockPilot" "#9ca3af" font_desc
    ] }

/-- The bytes written for a file: the encoding format passed to `img.save`
together with the encoded canvas. -/
structure FileData where
  format : String
  image : Img
  deriving DecidableEq, Repr

/-- Split a character list at `/`, as Python's `"…".split("/")` does (the
empty string yields `[""]`). -/
def splitParts : List Char → List String
  | [] => [""]
  | c :: cs =>
    let rest := splitParts cs
    if c = '/' then "" :: rest
    else
      match rest with
      | [] => [String.mk [c]]
      | r :: rs => String.mk (c :: r.data) :: rs

/-- The `/`-separated components of a path. -/
def pathParts (p : String) : List String := splitParts p.data

/-- Model of `os.path.dirname` for the slash-separated relative paths the script uses:
everything before the last `/`, empty for a bare filename. -/
def dirname (p : String) : String :=
  String.intercalate "/" ((pathParts p).dropLast)

/-- All slash-prefixes of a path, shortest first: the directories
`os.makedirs` creates recursively (the path itself is the last entry). -/
def ancestors (p : String) : List String :=
  let parts := pathParts p
  (List.range parts.length).map (fun i => String.intercalate "/" (parts.take (i + 1)))

/-- The filesystem: existing directories, written files, and which `mkdir`
and file-write operations the system permits. -/
structure FS where
  dirs : List String
  files : List (String × FileData)
  mkdirOk : String → Bool
  writeOk : String → Bool

/-- Model of `os.makedirs(path, exist_ok=True)` (line 74 of the source): the empty
path raises `FileNotFoundError` (CPython's `mkdir('')`); an existing
directory is accepted silently because of `exist_ok=True`; otherwise the
directory and its missing parents are created, or a permission error is
raised. -/
def makedirs (fs : FS) (path : String) : Except Exc FS :=
  if path = "" then .error (.fileNotFoundError path)
  else if fs.dirs.contains path then .ok fs
  else if fs.mkdirOk path then .ok { fs with dirs := ancestors path ++ fs.dirs }
  else .error (.permissionError path)

/-- Model of `img.save(filename, "PNG")` (line 75): writes the PNG-encoded canvas to
`filename`, overwriting any existing file at that path, or raises an
I/O error when the write is not permitted. -/
def save (fs : FS) (img : Img) (filename : String) : Except Exc FS :=
  if fs.writeOk filename then
    .ok { fs with
          files := (filename, { format := "PNG", image := img }) ::
                   fs.files.filter (fun kv => kv.1 ≠ filename) }
  else .error (.oserror filename)

/-- The observable program state: the filesystem and the console lines
printed so far. -/
structure PyState where
  fs : FS
  console : List String

/-- The confirmation line of line 76 of the source. -/
def confirmLine (filename : String) : String :=
  "✅ Image créée: " ++ filename

/-- The generator `create_placeholder_image(title, description, filename)` (lines 16-76):
renders the canvas, ensures the parent directory exists, saves the PNG and
prints a confirmation. An exception in `makedirs` or `save` is uncaught:
the returned state is the state reached so far paired with the exception. -/
def create_placeholder_image (env : FontEnv) (title description filename : String)
    (st : PyState) : PyState × Option Exc :=
  let img := renderedImage env title description
  match makedirs st.fs (dirname filename) with
  | .error e => (st, some e)
  | .ok fs1 =>
    match save fs1 img filename with
    | .error e => ({ st with fs := fs1 }, some e)
    | .ok fs2 =>
      ({ fs := fs2, console := st.console ++ [confirmLine filename] }, none)

/-- The hardcoded list of 14 image specs (lines 81-103), in source order,
each a `(filename, title, description)` triple. -/
def images : List (String × String × String) := [
  -- Login
  ("docs/screenshots/login/login-page.png", "Page de Connexion",
    "Saisissez vos identifiants pour accéder à ClockPilot"),
  ("docs/screenshots/login/login-error.png", "Erreur de Connexion",
    "Identifiants incorrects - Vérifiez votre email et mot de passe"),
  ("docs/screenshots/login/login-success.png", "Connexion Réussie",
    "Redirection vers votre tableau de bord..."),
  -- Employé
  ("docs/screenshots/employee/dashboard.png", "Tableau de Bord Employé",
    "Vue d\x27ensemble de votre activité et planning"),
  ("docs/screenshots/employee/planning-month.png", "Planning Mensuel",
    "Consultez votre planning sur un mois complet"),
  ("docs/screenshots/employee/time-tracking.png", "Pointage Temps Réel",
    "Enregistrez vos heures de travail en temps réel"),
  ("docs/screenshots/employee/manual-entry.png", "Saisie Manuelle",
    "Ajoutez des heures de travail manuellement"),
  ("docs/screenshots/employee/reports.png", "Rapports Personnels",
    "Analysez vos statistiques de travail"),
  ("docs/screenshots/employee/profile.png", "Profil Utilisateur",
    "Gérez vos informations personnelles et préférences"),
  -- Admin
  ("docs/screenshots/admin/dashboard.png", "Tableau de Bord Admin",
    "Vue d\x27ensemble de l\x27activité de l\x27entreprise"),
  ("docs/screenshots/admin/employees-list.png", "Gestion des Employés",
    "Consultez et administrez votre équipe"),
  ("docs/screenshots/admin/employee-create.png", "Création d\x27Employé",
    "Ajoutez un nouveau membre à l\x27équipe"),
  ("docs/screenshots/admin/validation.png", "Validation des Heures",
    "Approuvez ou rejetez les heures saisies"),
  ("docs/screenshots/admin/export-dialog.png", "Export de Données",
    "Générez des rapports personnalisés")
]

/-- The start banner of line 105. -/
def startBanner : String :=
  "🖼️  Création des images placeholder pour la documentation..."

/-- The end banner of line 110. -/
def endBanner : String :=
  "✅ Toutes les images placeholder ont été créées!"

/-- Append one printed line to the console. -/
def pushLine (st : PyState) (line : String) : PyState :=
  { st with console := st.console ++ [line] }

/-- The `for filename, title, description in images:` loop of lines 107-108:
process specs in order; an uncaught exception stops the loop and propagates
with the state reached so far. -/
def runSpecs (env : FontEnv) : List (String × String × String) → PyState →
    PyState × Option Exc
  | [], st => (st, none)
  | spec :: rest, st =>
    match create_placeholder_image env spec.2.1 spec.2.2 spec.1 st with
    | (st', none) => runSpecs env rest st'
    | (st', some e) => (st', some e)

/-- The batch driver `create_all_placeholders()` (lines 78-110): start banner, the loop over
the 14 specs, end banner. The end banner is only printed when the loop
completes; an exception propagates out of the driver. -/
def create_all_placeholders (env : FontEnv) (st : PyState) : PyState × Option Exc :=
  let st1 := pushLine st startBanner
  match runSpecs env images st1 with
  | (st', none) => (pushLine st' endBanner, none)
  | (st', some e) => (st', some e)

/-! ### Concrete environments and states used to exercise the model -/

/-- A simple monospaced text measurement: 12 pixels per character. -/
def monoBbox (f : Font) (s : String) : Bbox :=
  { x0 := 0, y0 := 0, x1 := (12 * s.length : Int), y1 := (f.size : Int) }

/-- A system on which every `truetype` load succeeds. -/
def envAll : FontEnv :=
  { truetype := fun n s => .ok { name := n, size := s }
    load_default := { name := "builtin-default", size := 11 }
    textbbox := monoBbox }

/-- A system on which only `arial.ttf` loads; every other `truetype` load
raises an `OSError`. -/
def envNoHelv : FontEnv :=
  { truetype := fun n s =>
      if n = "arial.ttf" then .ok { name := n, size := s }
      else .error (.oserror "cannot open resource")
    load_default := { name := "builtin-default", size := 11 }
    textbbox := monoBbox }

/-- A system on which every `truetype` load raises an `OSError`. -/
def envNoFonts : FontEnv :=
  { truetype := fun _ _ => .error (.oserror "cannot open resource")
    load_default := { name := "builtin-default", size := 11 }
    textbbox := monoBbox }

/-- A system on which every `truetype` load raises a `TypeError` — an
exception that is not a resource-not-found condition. -/
def envTypeErr : FontEnv :=
  { truetype := fun _ _ => .error (.typeError "invalid font argument")
    load_default := { name := "builtin-default", size := 11 }
    textbbox := monoBbox }

/-- A system on which `truetype` fails exactly at point size 99 and succeeds
at every other size. -/
def envSize99Err : FontEnv :=
  { truetype := fun n s =>
      if s = 99 then .error (.valueError "bad size")
      else .ok { name := n, size := s }
    load_default := { name := "builtin-default", size := 11 }
    textbbox := monoBbox }

/-- A system whose text measurement reports every string as 2000 pixels wide
— wider than the 1200-pixel canvas. -/
def envWide : FontEnv :=
  { truetype := fun n s => .ok { name := n, size := s }
    load_default := { name := "builtin-default", size := 11 }
    textbbox := fun _ _ => { x0 := 0, y0 := 0, x1 := 2000, y1 := 30 } }

/-- An empty filesystem on which every operation is permitted. -/
def emptyFS : FS :=
  { dirs := [], files := [], mkdirOk := fun _ => true, writeOk := fun _ => true }

/-- The initial program state: empty permissive filesystem, empty console. -/
def st0 : PyState := { fs := emptyFS, console := [] }

/-- An initial state on which directory creation is permitted but every file
write raises an `OSError`. -/
def stNoWrite : PyState :=
  { fs := { dirs := [], files := [], mkdirOk := fun _ => true, writeOk := fun _ => false }
    console := [] }

/-- A state in which the directory `docs` already exists. -/
def stWithDocs : PyState :=
  { fs := { dirs := ["docs"], files := [], mkdirOk := fun _ => true,
            writeOk := fun _ => true }
    console := [] }

/-- A state with a pre-existing file and console line, to show the written
contents do not depend on prior state. -/
def stPre : PyState :=
  { fs := { dirs := ["docs"]
            files := [("docs/old.png",
              { format := "PNG"
                image := { mode := "RGB", width := 1, height := 1,
                           background := "#000000", ops := [] } })]
            mkdirOk := fun _ => true
            writeOk := fun _ => true }
    console := ["earlier output"] }

/-- The state after one generator call on `envAll` from the empty state. -/
def stAfterOne : PyState :=
  (create_placeholder_image envAll "T" "D" "docs/a.png" st0).1

/-- The state after the same generator call from `stPre`. -/
def stAfterOnePre : PyState :=
  (create_placeholder_image envAll "T" "D" "docs/a.png" stPre).1

/-- The state after a full successful batch run from `st0` on `envAll`. -/
def finalStateAll : PyState := (create_all_placeholders envAll st0).1

/-- The state at which a batch from `stNoWrite` aborts: the first spec's
directories were created, its save raised, nothing else ran. -/
def stFailFirst : PyState :=
  { fs := { dirs := ancestors "docs/screenshots/login", files := [],
            mkdirOk := fun _ => true, writeOk := fun _ => false }
    console := [startBanner] }

/-! ### Helper lemmas -/

/-- One fallback tier consults `truetype` only at the title and description
sizes, so two systems that agree there run the tier identically. -/
theorem loadTier_congr (env env' : FontEnv) (name : String)
    (h32 : env.truetype name (FONT_SIZE + 8) = env'.truetype name (FONT_SIZE + 8))
    (h20 : env.truetype name (FONT_SIZE - 4) = env'.truetype name (FONT_SIZE - 4)) :
    loadTier env name = loadTier env' name := by
  simp only [loadTier, h32, h20]

/-- Centering bounds for widths that fit the canvas. -/
theorem centerX_bounds (w : Int) (h0 : 0 ≤ w) (h1 : w ≤ (WIDTH : Int)) :
    0 ≤ centerX w ∧ centerX w + w ≤ (WIDTH : Int) := by
  simp only [centerX, WIDTH] at *
  rw [Int.fdiv_eq_ediv _ (by norm_num : (0 : Int) ≤ 2)]
  omega

/-- A successful generator call writes exactly the PNG-encoded rendered
canvas at `filename` and prints exactly one confirmation line. -/
theorem create_ok_state (env : FontEnv) (title description filename : String)
    (st st' : PyState)
    (h : create_placeholder_image env title description filename st = (st', none)) :
    List.lookup filename st'.fs.files =
      some { format := "PNG", image := renderedImage env title description } ∧
    st'.console = st.console ++ [confirmLine filename] := by
  simp only [create_placeholder_image] at h
  cases hmk : makedirs st.fs (dirname filename) with
  | error e => simp [hmk] at h
  | ok fs1 =>
    simp only [hmk] at h
    cases hsv : save fs1 (renderedImage env title description) filename with
    | error e => simp [hsv] at h
    | ok fs2 =>
      simp only [hsv] at h
      rw [Prod.mk.injEq] at h
      obtain ⟨hst, -⟩ := h
      subst hst
      simp only [save] at hsv
      cases hw : fs1.writeOk filename with
      | false => simp [hw] at hsv
      | true =>
        simp only [hw, if_true] at hsv
        cases hsv
        refine ⟨?_, rfl⟩
        simp [List.lookup]

/-- A generator call that raises prints nothing. -/
theorem create_err_console (env : FontEnv) (title description filename : String)
    (st st' : PyState) (e : Exc)
    (h : create_placeholder_image env title description filename st = (st', some e)) :
    st'.console = st.console := by
  simp only [create_placeholder_image] at h
  cases hmk : makedirs st.fs (dirname filename) with
  | error e' =>
    simp only [hmk] at h
    rw [Prod.mk.injEq] at h
    obtain ⟨hst, -⟩ := h
    subst hst
    rfl
  | ok fs1 =>
    simp only [hmk] at h
    cases hsv : save fs1 (renderedImage env title description) filename with
    | error e' =>
      simp only [hsv] at h
      rw [Prod.mk.injEq] at h
      obtain ⟨hst, -⟩ := h
      subst hst
      rfl
    | ok fs2 => simp [hsv] at h

/-- The loop prints exactly one confirmation line per processed spec, in
list order. -/
theorem runSpecs_ok_console (env : FontEnv)
    (specs : List (String × String × String)) (st st' : PyState)
    (h : runSpecs env specs st = (st', none)) :
    st'.console = st.console ++ specs.map (fun s => confirmLine s.1) := by
  induction specs generalizing st with
  | nil =>
    simp only [runSpecs] at h
    rw [Prod.mk.injEq] at h
    obtain ⟨hst, -⟩ := h
    subst hst
    simp
  | cons s rest ih =>
    simp only [runSpecs] at h
    cases hc : create_placeholder_image env s.2.1 s.2.2 s.1 st with
    | mk st1 r =>
      cases r with
      | none =>
        simp only [hc] at h
        have h1 := (create_ok_state env s.2.1 s.2.2 s.1 st st1 hc).2
        rw [ih st1 h, h1]
        simp
      | some e => simp [hc] at h

/-- Running a loop over `l1 ++ l2` first runs `l1`; if that succeeds the
loop continues with `l2` from the reached state. -/
theorem runSpecs_append_ok (env : FontEnv)
    (l1 l2 : List (String × String × String)) (st st1 : PyState)
    (h : runSpecs env l1 st = (st1, none)) :
    runSpecs env (l1 ++ l2) st = runSpecs env l2 st1 := by
  induction l1 generalizing st with
  | nil =>
    simp only [runSpecs] at h
    rw [Prod.mk.injEq] at h
    obtain ⟨hst, -⟩ := h
    subst hst
    simp
  | cons s rest ih =>
    simp only [List.cons_append, runSpecs] at h ⊢
    cases hc : create_placeholder_image env s.2.1 s.2.2 s.1 st with
    | mk stx r =>
      cases r with
      | none =>
        simp only [hc] at h ⊢
        exact ih stx h
      | some e => simp [hc] at h

/-! ### Claim theorems -/

/-- C1: font resolution is a three-tier fallback — the system Helvetica file
at sizes `FONT_SIZE + 8` / `FONT_SIZE - 4` first; on failure `arial.ttf` at
the same two sizes; on failure the built-in default font for both — and it is
a total function of the environment, so no font-loading failure propagates
out of the generator. -/
theorem font_resolution_three_tier (env : FontEnv) :
    (∀ p, loadTier env "/System/Library/Fonts/Helvetica.ttc" = .ok p →
        resolveFonts env = p) ∧
    (∀ e p, loadTier env "/System/Library/Fonts/Helvetica.ttc" = .error e →
        loadTier env "arial.ttf" = .ok p → resolveFonts env = p) ∧
    (∀ e e', loadTier env "/System/Library/Fonts/Helvetica.ttc" = .error e →
        loadTier env "arial.ttf" = .error e' →
        resolveFonts env = (env.load_default, env.load_default)) := by
  refine ⟨fun p h1 => ?_, fun e p h1 h2 => ?_, fun e e' h1 h2 => ?_⟩
  · simp [resolveFonts, h1]
  · simp [resolveFonts, resolveFromArial, h1, h2]
  · simp [resolveFonts, resolveFromArial, h1, h2]

/-- Witness for C1: on a system where only `arial.ttf` loads, resolution
lands on the second tier. -/
theorem font_resolution_three_tier_witness :
    resolveFonts envNoHelv =
      ({ name := "arial.ttf", size := 32 }, { name := "arial.ttf", size := 20 }) :=
  (font_resolution_three_tier envNoHelv).2.1 (.oserror "cannot open resource")
    ({ name := "arial.ttf", size := 32 }, { name := "arial.ttf", size := 20 })
    rfl rfl

/-- C3: the first two font tiers request the title font at `FONT_SIZE + 8 =
32` and the description font at `FONT_SIZE - 4 = 20`; resolution consults
`truetype` at no other size, so two systems agreeing at those two sizes (and
on the default font) resolve identically. -/
theorem font_tier_sizes (env env' : FontEnv)
    (h32 : ∀ name, env.truetype name (FONT_SIZE + 8) = env'.truetype name (FONT_SIZE + 8))
    (h20 : ∀ name, env.truetype name (FONT_SIZE - 4) = env'.truetype name (FONT_SIZE - 4))
    (hdef : env.load_default = env'.load_default) :
    (FONT_SIZE + 8 = 32 ∧ FONT_SIZE - 4 = 20) ∧
      resolveFonts env = resolveFonts env' := by
  refine ⟨⟨rfl, rfl⟩, ?_⟩
  have hH := loadTier_congr env env' "/System/Library/Fonts/Helvetica.ttc"
    (h32 _) (h20 _)
  have hA := loadTier_congr env env' "arial.ttf" (h32 _) (h20 _)
  cases hres : loadTier env' "/System/Library/Fonts/Helvetica.ttc" with
  | ok p => simp [resolveFonts, hH, hres]
  | error e =>
    cases hres2 : loadTier env' "arial.ttf" with
    | ok p => simp [resolveFonts, resolveFromArial, hH, hA, hres, hres2]
    | error e' =>
      simp [resolveFonts, resolveFromArial, hH, hA, hres, hres2, hdef]

/-- Witness for C3: a system failing only at point size 99 resolves exactly
as the fully working system does. -/
theorem font_tier_sizes_witness :
    (FONT_SIZE + 8 = 32 ∧ FONT_SIZE - 4 = 20) ∧
      resolveFonts envAll = resolveFonts envSize99Err :=
  font_tier_sizes envAll envSize99Err (fun _ => rfl) (fun _ => rfl) rfl

/-- C10: the bare `except:` clauses catch every exception kind, not only
resource-not-found: whatever exception value tier one raises, tier two is
run, and whatever exception value tier two raises, the built-in default font
is used. -/
theorem font_fallback_catches_every_exception :
    (∀ (env : FontEnv) (e : Exc),
        loadTier env "/System/Library/Fonts/Helvetica.ttc" = .error e →
        resolveFonts env = resolveFromArial env) ∧
    (∀ (env : FontEnv) (e : Exc),
        loadTier env "arial.ttf" = .error e →
        resolveFromArial env = (env.load_default, env.load_default)) := by
  constructor
  · intro env e h
    simp [resolveFonts, h]
  · intro env e h
    simp [resolveFromArial, h]

/-- Witness for C10: a `TypeError` (not a missing-resource error) still
falls through to the next tier and then to the default font. -/
theorem font_fallback_catches_every_exception_witness :
    resolveFonts envTypeErr = resolveFromArial envTypeErr ∧
      resolveFromArial envTypeErr =
        (envTypeErr.load_default, envTypeErr.load_default) :=
  ⟨font_fallback_catches_every_exception.1 envTypeErr
      (.typeError "invalid font argument") rfl,
   font_fallback_catches_every_exception.2 envTypeErr
      (.typeError "invalid font argument") rfl⟩

/-- C2 (amended): whenever the rendered width of the title (in the resolved
title font) and of the description (in the resolved description font) is
nonnegative and at most the canvas width 1200, the centering offsets
`(WIDTH - w) // 2` computed by the generator satisfy `0 ≤ offset` and
`offset + w ≤ WIDTH`. (As originally stated — for arbitrary strings — the
claim fails: text measured wider than the canvas yields a negative offset;
see the counterexample.) -/
theorem centering_within_canvas (env : FontEnv) (title description : String)
    (ht0 : 0 ≤ textWidthOf env (resolveFonts env).1 title)
    (ht1 : textWidthOf env (resolveFonts env).1 title ≤ (WIDTH : Int))
    (hd0 : 0 ≤ textWidthOf env (resolveFonts env).2 description)
    (hd1 : textWidthOf env (resolveFonts env).2 description ≤ (WIDTH : Int)) :
    (0 ≤ centerX (textWidthOf env (resolveFonts env).1 title) ∧
      centerX (textWidthOf env (resolveFonts env).1 title) +
        textWidthOf env (resolveFonts env).1 title ≤ (WIDTH : Int)) ∧
    (0 ≤ centerX (textWidthOf env (resolveFonts env).2 description) ∧
      centerX (textWidthOf env (resolveFonts env).2 description) +
        textWidthOf env (resolveFonts env).2 description ≤ (WIDTH : Int)) :=
  ⟨centerX_bounds _ ht0 ht1, centerX_bounds _ hd0 hd1⟩

/-- Witness for C2 (amended): on `envAll` (12 pixels per character) the
title and description of the first hardcoded spec stay on canvas. -/
theorem centering_within_canvas_witness :
    (0 ≤ centerX (textWidthOf envAll (resolveFonts envAll).1 "Page de Connexion") ∧
      centerX (textWidthOf envAll (resolveFonts envAll).1 "Page de Connexion") +
        textWidthOf envAll (resolveFonts envAll).1 "Page de Connexion" ≤ (WIDTH : Int)) ∧
    (0 ≤ centerX (textWidthOf envAll (resolveFonts envAll).2
          "Saisissez vos identifiants pour accéder à ClockPilot") ∧
      centerX (textWidthOf envAll (resolveFonts envAll).2
          "Saisissez vos identifiants pour accéder à ClockPilot") +
        textWidthOf envAll (resolveFonts envAll).2
          "Saisissez vos identifiants pour accéder à ClockPilot" ≤ (WIDTH : Int)) :=
  centering_within_canvas envAll "Page de Connexion"
    "Saisissez vos identifiants pour accéder à ClockPilot"
    (by decide) (by decide) (by decide) (by decide)

/-- Counterexample to C2 as stated: on a system measuring text as 2000
pixels wide (wider than the canvas), the computed title offset is
`(1200 - 2000) // 2 = -400`, which violates both `0 ≤ offset` and
`offset + renderedTextWidth ≤ canvasWidth` fails on the left conjunct. -/
theorem centering_offcanvas_counterexample :
    textWidthOf envWide (resolveFonts envWide).1 "Page de Connexion" = 2000 ∧
    centerX (textWidthOf envWide (resolveFonts envWide).1 "Page de Connexion") = -400 ∧
    ¬ (0 ≤ centerX (textWidthOf envWide (resolveFonts envWide).1 "Page de Connexion") ∧
        centerX (textWidthOf envWide (resolveFonts envWide).1 "Page de Connexion") +
          textWidthOf envWide (resolveFonts envWide).1 "Page de Connexion" ≤
            (WIDTH : Int)) := by
  refine ⟨by decide, by decide, ?_⟩
  decide

/-- C4: every canvas the generator produces is an RGB image of exactly
1200×800 pixels allocated with background `#f8fafc`, and a successful call
writes it to the output path encoded as PNG. -/
theorem saved_png_canvas (env : FontEnv) (title description filename : String)
    (st st' : PyState)
    (h : create_placeholder_image env title description filename st = (st', none)) :
    (renderedImage env title description).mode = "RGB" ∧
    (renderedImage env title description).width = 1200 ∧
    (renderedImage env title description).height = 800 ∧
    (renderedImage env title description).background = "#f8fafc" ∧
    List.lookup filename st'.fs.files =
      some { format := "PNG", image := renderedImage env title description } :=
  ⟨rfl, rfl, rfl, rfl,
   (create_ok_state env title description filename st st' h).1⟩

/-- Witness for C4: one concrete successful call from the empty state. -/
theorem saved_png_canvas_witness :
    (renderedImage envAll "T" "D").mode = "RGB" ∧
    (renderedImage envAll "T" "D").width = 1200 ∧
    (renderedImage envAll "T" "D").height = 800 ∧
    (renderedImage envAll "T" "D").background = "#f8fafc" ∧
    List.lookup "docs/a.png" stAfterOne.fs.files =
      some { format := "PNG", image := renderedImage envAll "T" "D" } :=
  saved_png_canvas envAll "T" "D" "docs/a.png" st0 stAfterOne rfl

/-- C5: the generator is deterministic — two successful runs on the same
`(title, description, outputPath)` triple (under the same font environment)
write identical file contents, namely the PNG encoding of the rendered
canvas, regardless of the prior filesystem or console state. -/
theorem deterministic_file_contents (env : FontEnv)
    (title description filename : String) (st1 st2 st1' st2' : PyState)
    (h1 : create_placeholder_image env title description filename st1 = (st1', none))
    (h2 : create_placeholder_image env title description filename st2 = (st2', none)) :
    List.lookup filename st1'.fs.files = List.lookup filename st2'.fs.files ∧
    List.lookup filename st1'.fs.files =
      some { format := "PNG", image := renderedImage env title description } := by
  have a1 := (create_ok_state env title description filename st1 st1' h1).1
  have a2 := (create_ok_state env title description filename st2 st2' h2).1
  exact ⟨a1.trans a2.symm, a1⟩

/-- Witness for C5: the same call from the empty state and from a state with
a pre-existing file and console history writes the same contents. -/
theorem deterministic_file_contents_witness :
    List.lookup "docs/a.png" stAfterOne.fs.files =
      List.lookup "docs/a.png" stAfterOnePre.fs.files ∧
    List.lookup "docs/a.png" stAfterOne.fs.files =
      some { format := "PNG", image := renderedImage envAll "T" "D" } :=
  deterministic_file_contents envAll "T" "D" "docs/a.png" st0 stPre
    stAfterOne stAfterOnePre rfl rfl

/-- C6: the batch driver iterates the fixed hardcoded list of exactly 14
`(path, title, description)` specs, invoking the generator once per entry in
list order, and a successful run's console is one start banner, one
confirmation line per image in spec order, and one completion banner. -/
theorem batch_driver_console (env : FontEnv) :
    images.length = 14 ∧
    ∀ st st', create_all_placeholders env st = (st', none) →
      st'.console = st.console ++ [startBanner] ++
        images.map (fun s => confirmLine s.1) ++ [endBanner] := by
  refine ⟨rfl, fun st st' h => ?_⟩
  simp only [create_all_placeholders] at h
  cases hr : runSpecs env images (pushLine st startBanner) with
  | mk st1 r =>
    cases r with
    | none =>
      simp only [hr] at h
      rw [Prod.mk.injEq] at h
      obtain ⟨hst, -⟩ := h
      subst hst
      have hc := runSpecs_ok_console env images (pushLine st startBanner) st1 hr
      simp only [pushLine] at hc
      simp only [pushLine, hc]
    | some e => simp [hr] at h

/-- Witness for C6: the concrete full batch run from the empty state on
`envAll` produces exactly this console transcript. -/
theorem batch_driver_console_witness :
    images.length = 14 ∧
    finalStateAll.console = st0.console ++ [startBanner] ++
      images.map (fun s => confirmLine s.1) ++ [endBanner] :=
  ⟨(batch_driver_console envAll).1,
   (batch_driver_console envAll).2 st0 finalStateAll rfl⟩

/-- C7: before writing, the generator runs `makedirs` on the parent
directory of the output path: if the parent already exists this is a silent
no-op (and, writes permitting, the whole call succeeds); if it is missing
(and creation is permitted) the directory is created together with its
missing ancestors, the files being untouched. Stated for paths that have a
directory component — for bare filenames see C9. -/
theorem ensure_parent_directory (env : FontEnv) (title description filename : String)
    (st : PyState) (hne : dirname filename ≠ "") :
    (st.fs.dirs.contains (dirname filename) = true →
        makedirs st.fs (dirname filename) = .ok st.fs ∧
        (st.fs.writeOk filename = true →
          (create_placeholder_image env title description filename st).2 = none)) ∧
    (st.fs.dirs.contains (dirname filename) = false →
        st.fs.mkdirOk (dirname filename) = true →
        makedirs st.fs (dirname filename) =
          .ok { st.fs with dirs := ancestors (dirname filename) ++ st.fs.dirs }) := by
  constructor
  · intro hmem
    have hmem' : dirname filename ∈ st.fs.dirs := by simpa using hmem
    have hmk : makedirs st.fs (dirname filename) = .ok st.fs := by
      simp [makedirs, hne, hmem']
    refine ⟨hmk, fun hw => ?_⟩
    simp [create_placeholder_image, hmk, save, hw]
  · intro hmem hok
    have hmem' : dirname filename ∉ st.fs.dirs := by simpa using hmem
    simp [makedirs, hne, hmem', hok]

/-- Witness for C7: with `docs` already present, `makedirs` is a no-op and
the call succeeds; from the empty filesystem the parent is created. -/
theorem ensure_parent_directory_witness :
    (makedirs stWithDocs.fs (dirname "docs/a.png") = .ok stWithDocs.fs ∧
      (create_placeholder_image envAll "T" "D" "docs/a.png" stWithDocs).2 = none) ∧
    makedirs st0.fs (dirname "docs/a.png") =
      .ok { st0.fs with dirs := ancestors (dirname "docs/a.png") ++ st0.fs.dirs } := by
  refine ⟨?_, ?_⟩
  · have h := (ensure_parent_directory envAll "T" "D" "docs/a.png" stWithDocs
      (by decide)).1 rfl
    exact ⟨h.1, h.2 rfl⟩
  · exact (ensure_parent_directory envAll "T" "D" "docs/a.png" st0 (by decide)).2
      rfl rfl

/-- C8: a directory-creation or save failure in one generator call is caught
nowhere: the exception propagates out of the generator and out of the batch
driver with exactly the state reached so far, so no spec after the failing
one is processed, and the failing call itself prints nothing. -/
theorem io_failure_aborts_batch (env : FontEnv) (st stj stj' : PyState)
    (pre : List (String × String × String)) (s : String × String × String)
    (post : List (String × String × String)) (e : Exc)
    (hsplit : images = pre ++ s :: post)
    (hpre : runSpecs env pre (pushLine st startBanner) = (stj, none))
    (hfail : create_placeholder_image env s.2.1 s.2.2 s.1 stj = (stj', some e)) :
    create_all_placeholders env st = (stj', some e) ∧
    stj'.console = stj.console := by
  have hrun : runSpecs env images (pushLine st startBanner) = (stj', some e) := by
    rw [hsplit, runSpecs_append_ok env pre (s :: post) _ stj hpre]
    simp only [runSpecs, hfail]
  refine ⟨?_, create_err_console env s.2.1 s.2.2 s.1 stj stj' e hfail⟩
  simp [create_all_placeholders, hrun]

/-- Witness for C8: with file writes forbidden, the first spec's save raises
an `OSError`; the batch aborts there with only the start banner printed and
no later spec processed. -/
theorem io_failure_aborts_batch_witness :
    create_all_placeholders envAll stNoWrite =
      (stFailFirst, some (.oserror "docs/screenshots/login/login-page.png")) ∧
    stFailFirst.console = (pushLine stNoWrite startBanner).console :=
  io_failure_aborts_batch envAll stNoWrite (pushLine stNoWrite startBanner)
    stFailFirst []
    ("docs/screenshots/login/login-page.png", "Page de Connexion",
      "Saisissez vos identifiants pour accéder à ClockPilot")
    (images.drop 1) (.oserror "docs/screenshots/login/login-page.png")
    rfl rfl rfl

/-- C9: for an output path with no directory component, `dirname` is the
empty string and the generator's unconditional `makedirs` call raises
`FileNotFoundError` — even though no directory would need creating — so the
call fails before writing anything. -/
theorem bare_filename_raises (env : FontEnv) (title description : String)
    (st : PyState) :
    dirname "image.png" = "" ∧
    makedirs st.fs (dirname "image.png") = .error (.fileNotFoundError "") ∧
    create_placeholder_image env title description "image.png" st =
      (st, some (.fileNotFoundError "")) :=
  ⟨rfl, rfl, rfl⟩

end CreateDemoImages
